import Mathlib

/-!
Shallow embedding of the go-google-geocoding-api client library
(package geocode: geocode.go and service.go).

Modelling conventions:
* Go float64 coordinates are modelled as exact rationals; the zero tests
  performed by the code are exact in both worlds.
* Go strings are modelled as Lean strings; where Go compares or escapes
  raw bytes, the UTF-8 byte sequence of the string is computed explicitly.
* The http.Client held by the Service is modelled as an explicit parameter
  of Do: a function from the request URL to either a transport error or an
  HTTP response carrying a status code and a fully read body.
* json.Unmarshal (standard library, not part of this repository) is
  modelled as an explicit decoder parameter of Do; the decoded shape is
  the GeocodeResponse structure translated from geocode.go.
* Do additionally returns the list of URLs that were fetched, so that
  claims about the network call being performed or skipped are statable.
-/

namespace Geocode

/-- UTF-8 encoding of a single character as its list of byte values. -/
def utf8Bytes (c : Char) : List Nat :=
  let n := c.toNat
  if n < 128 then [n]
  else if n < 2048 then [192 + n / 64, 128 + n % 64]
  else if n < 65536 then [224 + n / 4096, 128 + (n / 64) % 64, 128 + n % 64]
  else [240 + n / 262144, 128 + (n / 4096) % 64, 128 + (n / 64) % 64, 128 + n % 64]

/-- The UTF-8 bytes of a string, as Go sees the string. -/
def strBytes (s : String) : List Nat :=
  (s.data.map utf8Bytes).flatten

/-- Uppercase hexadecimal digit, as used by net/url escaping. -/
def hexDigit (n : Nat) : String :=
  if n < 10 then toString n else String.singleton (Char.ofNat (55 + n))

/-- Escaping of one byte under net/url QueryEscape semantics: ASCII
letters, digits and the marks minus, underscore, dot and tilde are kept,
a space becomes a plus sign, every other byte becomes a percent escape
with uppercase hexadecimal digits. -/
def escapeByte (b : Nat) : String :=
  if (65 ≤ b ∧ b ≤ 90) ∨ (97 ≤ b ∧ b ≤ 122) ∨ (48 ≤ b ∧ b ≤ 57)
      ∨ b = 45 ∨ b = 95 ∨ b = 46 ∨ b = 126 then
    String.singleton (Char.ofNat b)
  else if b = 32 then "+"
  else "%" ++ hexDigit (b / 16) ++ hexDigit (b % 16)

/-- Model of net/url QueryEscape: escape every UTF-8 byte of the string. -/
def queryEscape (s : String) : String :=
  String.join ((strBytes s).map escapeByte)

/-- Joining of the encoded key-value pieces with ampersands. This models
the loop in url.Values.Encode, which writes an ampersand before every
piece except the first; the pieces produced by this client are never
empty, so the two formulations agree. -/
def joinAmp : List String → String
  | [] => ""
  | [x] => x
  | x :: y :: xs => x ++ "&" ++ joinAmp (y :: xs)

/-- Key order used by url.Values.Encode: Go sorts the keys with
sort.Strings, which compares strings byte-wise; this is lexicographic
order on the UTF-8 byte lists. -/
def keyLe (p q : String × String) : Prop :=
  strBytes p.1 ≤ strBytes q.1

instance : DecidableRel keyLe :=
  fun p q => inferInstanceAs (Decidable (strBytes p.1 ≤ strBytes q.1))

instance : IsTotal (String × String) keyLe :=
  ⟨fun a b => le_total (strBytes a.1) (strBytes b.1)⟩

instance : IsTrans (String × String) keyLe :=
  ⟨fun _ _ _ h1 h2 => le_trans h1 h2⟩

/-- Model of url.Values.Encode: sort the entries by key and emit
escapedKey=escapedValue pieces joined by ampersands. url.Values is a map
from keys to value lists; the query builder of this client adds each of
its six distinct keys at most once, so a list of key-value pairs sorted
stably by key is an exact model. -/
def Encode (l : List (String × String)) : String :=
  joinAmp ((List.insertionSort keyLe l).map fun p => queryEscape p.1 ++ "=" ++ queryEscape p.2)

/-- Pad a decimal numeral with leading zeros to the given width. -/
def padZeros (w : Nat) (s : String) : String :=
  String.mk (List.replicate (w - s.length) '0') ++ s

/-- Rounding of the fraction a over b to the nearest natural number,
ties to even, as Go strconv decimal rounding behaves. -/
def roundHalfEven (a b : Nat) : Nat :=
  let d := a / b
  let r := a % b
  if 2 * r < b then d
  else if b < 2 * r then d + 1
  else if d % 2 = 0 then d else d + 1

/-- Model of fmt.Sprintf verb f on a float64 value (here an exact
rational): fixed-point notation with exactly six digits after the
decimal point, rounded to nearest. -/
def goFmtF (q : ℚ) : String :=
  let m := roundHalfEven (q.num.natAbs * 1000000) q.den
  (if q < 0 then "-" else "") ++ toString (m / 1000000) ++ "." ++ padZeros 6 (toString (m % 1000000))

/-- The package level constant of service.go. -/
def baseURL : String := "https://maps.googleapis.com/maps/api/geocode"

/-- Service from service.go. The http.Client field is modelled as the
explicit transport parameter of Do instead of a stored handle. -/
structure Service where
  key : String
  url : String
deriving DecidableEq

/-- NewService from service.go. -/
def NewService (key : String) : Service :=
  { key := key, url := baseURL }

/-- SetURL from service.go: overwrites the url field of the service. -/
def SetURL (s : Service) (url : String) : Service :=
  { s with url := url }

/-- ReverseGeocodeCall from geocode.go. -/
structure ReverseGeocodeCall where
  service : Service
  lat : ℚ
  lng : ℚ
  PlaceId : String := ""
  Language : String := ""
  ResultType : List String := []
  LocationType : List String := []
deriving DecidableEq

/-- ReverseGeocode from geocode.go: seeds the coordinate locator. -/
def ReverseGeocode (p : Service) (lat lng : ℚ) : ReverseGeocodeCall :=
  { service := p, lat := lat, lng := lng }

/-- LatLng from geocode.go. -/
structure LatLng where
  Lat : ℚ := 0
  Lng : ℚ := 0
deriving DecidableEq

/-- LatLngArea from geocode.go, field names kept as written there. -/
structure LatLngArea where
  SoutWest : LatLng := {}
  NorthEase : LatLng := {}
deriving DecidableEq

/-- Geometry from geocode.go. -/
structure Geometry where
  Location : LatLng := {}
  LocationType : String := ""
  Viewport : LatLngArea := {}
  Bounds : LatLngArea := {}
deriving DecidableEq

/-- AddressComponent from geocode.go. -/
structure AddressComponent where
  Types : List String := []
  LongName : String := ""
  ShortName : String := ""
deriving DecidableEq

/-- FeatureType from geocode.go. -/
abbrev FeatureType := String

/-- GeocodeDetail from geocode.go. -/
structure GeocodeDetail where
  Types : List FeatureType := []
  FormattedAddress : String := ""
  AddressComponents : List AddressComponent := []
  FormattedPhoneNumber : String := ""
  Geometry : Geometry := {}
  PartialMatch : String := ""
  PlaceID : String := ""
deriving DecidableEq

/-- GeocodeResponse from geocode.go. -/
structure GeocodeResponse where
  Results : List GeocodeDetail := []
  Status : String := ""
  ErrorMessage : String := ""
  HTMLAttributions : List String := []
deriving DecidableEq

/-- Modelled from the spec and the construction site in geocode.go: the
apiError type is referenced there with fields Status and Message but its
declaration is not under src; the spec describes it as an API error
carrying the status string and the optional message. -/
structure apiError where
  Status : String
  Message : String
deriving DecidableEq

/-- The errors Do can return, one constructor per return site: the
package level errLatLngOrPlaceIdRequire value, a propagated transport or
read error, the formatted bad-response error, a propagated decode error
from json.Unmarshal, and the apiError value. -/
inductive GeoError where
  | errLatLngOrPlaceIdRequire : GeoError
  | transport (msg : String) : GeoError
  | badResp (code : Nat) (body : String) : GeoError
  | decode (msg : String) : GeoError
  | api (e : apiError) : GeoError
deriving DecidableEq

/-- The message format of the bad-response error in Do, from
fmt.Errorf with the format string given there. -/
def badRespMsg (code : Nat) (body : String) : String :=
  "bad resp " ++ toString code ++ ": " ++ body

/-- An HTTP response as Do observes it: the status code and the fully
read body. -/
structure HttpResponse where
  StatusCode : Nat
  Body : String
deriving DecidableEq

/-- validate from geocode.go, nil modelled as none. -/
def validate (n : ReverseGeocodeCall) : Option GeoError :=
  if n.lat ≠ 0 ∨ n.lng ≠ 0 then none
  else if n.PlaceId ≠ "" then none
  else some GeoError.errLatLngOrPlaceIdRequire

/-- The key-value pairs added by the query method of geocode.go, in the
order the code adds them. Note that the place-id branch adds the
Language field as the value, exactly as the source does. -/
def queryPairs (r : ReverseGeocodeCall) : List (String × String) :=
  [("key", r.service.key)]
    ++ (if r.lat ≠ 0 ∨ r.lng ≠ 0 then
          [("latlng", goFmtF r.lat ++ "," ++ goFmtF r.lng)] else [])
    ++ (if r.PlaceId ≠ "" then [("place_id", r.Language)] else [])
    ++ (if r.Language ≠ "" then [("language", r.Language)] else [])
    ++ (if r.ResultType ≠ [] then
          [("result_type", String.intercalate "|" r.ResultType)] else [])
    ++ (if r.LocationType ≠ [] then
          [("location_type", String.intercalate "|" r.LocationType)] else [])

/-- query from geocode.go: build the url.Values and encode them. -/
def query (r : ReverseGeocodeCall) : String :=
  Encode (queryPairs r)

/-- Do from geocode.go. The transport and the JSON decoder are explicit
parameters; the second component of the result is the list of URLs that
were fetched. Note the source builds searchURL from the package constant
baseURL, not from the url field of the service. -/
def Do (n : ReverseGeocodeCall)
    (get : String → Except String HttpResponse)
    (unmarshal : String → Except String GeocodeResponse) :
    Except GeoError GeocodeResponse × List String :=
  match validate n with
  | some e => (Except.error e, [])
  | none =>
    let searchURL := baseURL ++ "/json?" ++ query n
    match get searchURL with
    | Except.error e => (Except.error (GeoError.transport e), [searchURL])
    | Except.ok resp =>
      if resp.StatusCode ≠ 200 then
        (Except.error (GeoError.badResp resp.StatusCode resp.Body), [searchURL])
      else
        match unmarshal resp.Body with
        | Except.error e => (Except.error (GeoError.decode e), [searchURL])
        | Except.ok data =>
          if data.Status ≠ "OK" then
            (Except.error (GeoError.api { Status := data.Status, Message := data.ErrorMessage }), [searchURL])
          else
            (Except.ok data, [searchURL])

/-- Substring containment for strings. -/
def containsStr (s sub : String) : Prop :=
  ∃ p q, s = p ++ sub ++ q

/-- Concrete inputs used to instantiate the theorems below. -/
def c1service : Service := SetURL (NewService "k") "http://example.com/geo"

def c1call : ReverseGeocodeCall := ReverseGeocode c1service 1 2

def c2call : ReverseGeocodeCall :=
  { service := NewService "k", lat := 0, lng := 0, PlaceId := "ChIJ123", Language := "th" }

def c4call : ReverseGeocodeCall := ReverseGeocode (NewService "k") 1 2

def c4data : GeocodeResponse := { Status := "ZERO_RESULTS" }

def c4resp : HttpResponse := { StatusCode := 200, Body := "\x7b\"status\":\"ZERO_RESULTS\"\x7d" }

def c4get : String → Except String HttpResponse := fun _ => Except.ok c4resp

def c4unm : String → Except String GeocodeResponse := fun _ => Except.ok c4data

def c5call : ReverseGeocodeCall := ReverseGeocode (NewService "k") 1 2

def c5resp : HttpResponse := { StatusCode := 500, Body := "server exploded" }

def c5get : String → Except String HttpResponse := fun _ => Except.ok c5resp

def c5unm : String → Except String GeocodeResponse := fun _ => Except.error "unused"

def c7call : ReverseGeocodeCall :=
  { service := NewService "k", lat := 0, lng := 0, PlaceId := "abc", Language := "th",
    ResultType := ["country", "postal_code"] }

def c9call : ReverseGeocodeCall := ReverseGeocode (NewService "k") 0 0

def c9get : String → Except String HttpResponse := fun _ => Except.error "must not be called"

def c9unm : String → Except String GeocodeResponse := fun _ => Except.error "must not be called"

def c10a : ReverseGeocodeCall :=
  { service := NewService "k", lat := 3, lng := 4, PlaceId := "p", Language := "en",
    ResultType := ["country"], LocationType := ["ROOFTOP"] }

def c10b : ReverseGeocodeCall :=
  { service := SetURL (NewService "k") "http://other.example", lat := 3, lng := 4,
    PlaceId := "p", Language := "en", ResultType := ["country"], LocationType := ["ROOFTOP"] }

/-- Membership in a conditionally present singleton block of the pair list. -/
theorem mem_ite_nil {α} {c : Prop} [Decidable c] {l : List α} {a : α} :
    (a ∈ if c then l else []) ↔ c ∧ a ∈ l := by
  split_ifs with h <;> simp [h]

/-- Every element of the piece list occurs literally inside the
ampersand join. -/
theorem joinAmp_infix : ∀ {l : List String} {a : String}, a ∈ l → ∃ p q, joinAmp l = p ++ a ++ q := by
  intro l
  induction l with
  | nil => intro a h; cases h
  | cons x xs ih =>
    intro a h
    rcases List.mem_cons.mp h with h1 | h2
    · subst h1
      cases xs with
      | nil =>
        exact ⟨"", "", by simp [joinAmp, String.append_empty, String.empty_append]⟩
      | cons y ys =>
        exact ⟨"", "&" ++ joinAmp (y :: ys),
          by simp [joinAmp, String.empty_append, String.append_assoc]⟩
    · cases xs with
      | nil => cases h2
      | cons y ys =>
        obtain ⟨p, q, hpq⟩ := ih h2
        refine ⟨x ++ "&" ++ p, q, ?_⟩
        rw [joinAmp, hpq]
        simp [String.append_assoc]

/-- Every key-value pair handed to Encode appears in the output as
escapedKey=escapedValue. -/
theorem encode_pair_infix {l : List (String × String)} {kv : String × String} (h : kv ∈ l) :
    containsStr (Encode l) (queryEscape kv.1 ++ "=" ++ queryEscape kv.2) := by
  have h1 : kv ∈ List.insertionSort keyLe l :=
    ((List.perm_insertionSort keyLe l).mem_iff).mpr h
  have h2 : (queryEscape kv.1 ++ "=" ++ queryEscape kv.2)
      ∈ (List.insertionSort keyLe l).map (fun p => queryEscape p.1 ++ "=" ++ queryEscape p.2) :=
    List.mem_map_of_mem _ h1
  exact joinAmp_infix h2

/-- Whenever validation passes, Do fetches exactly one URL, built from
the package constant baseURL. -/
theorem do_trace (n : ReverseGeocodeCall) (get : String → Except String HttpResponse)
    (unm : String → Except String GeocodeResponse) (hv : validate n = none) :
    (Do n get unm).2 = [baseURL ++ "/json?" ++ query n] := by
  simp only [Do, hv]
  cases get (baseURL ++ "/json?" ++ query n) with
  | error e => rfl
  | ok resp =>
    by_cases h : resp.StatusCode ≠ 200
    · simp [h]
    · simp only [if_neg h]
      cases unm resp.Body with
      | error e => rfl
      | ok data => by_cases h2 : data.Status ≠ "OK" <;> simp [h2]

/-- C1: the claim says a SetURL override changes the URL fetched by Do.
The code disagrees: Do builds searchURL from the package constant
baseURL, and the url field written by SetURL is never read. Here a
service whose url field was overridden to http colon slash slash
example.com slash geo still makes Do fetch the constant Google endpoint,
for every transport and every decoder. -/
theorem setURL_not_used_by_Do :
    c1service.url = "http://example.com/geo"
    ∧ ∀ (get : String → Except String HttpResponse)
        (unm : String → Except String GeocodeResponse),
        (Do c1call get unm).2
          = ["https://maps.googleapis.com/maps/api/geocode/json?key=k&latlng=1.000000%2C2.000000"] := by
  refine ⟨rfl, fun get unm => ?_⟩
  rw [do_trace c1call get unm (by decide)]
  decide

/-- C2: whenever the place identifier is non-empty, the query contains a
place id parameter, and the value serialized under it is the Language
field, not the place identifier, exactly as the reference code does. -/
theorem placeId_branch_serializes_language (r : ReverseGeocodeCall) (h : r.PlaceId ≠ "") :
    ("place_id", r.Language) ∈ queryPairs r
    ∧ (∀ v, ("place_id", v) ∈ queryPairs r → v = r.Language)
    ∧ containsStr (query r) (queryEscape "place_id" ++ "=" ++ queryEscape r.Language) := by
  have h1 : ("place_id", r.Language) ∈ queryPairs r := by
    simp [queryPairs, mem_ite_nil, h]
  refine ⟨h1, ?_, encode_pair_infix h1⟩
  intro v hv
  simp [queryPairs, mem_ite_nil] at hv
  tauto

theorem placeId_branch_serializes_language_witness :
    c2call.PlaceId ≠ ""
    ∧ ("place_id", c2call.Language) ∈ queryPairs c2call
    ∧ (∀ v, ("place_id", v) ∈ queryPairs c2call → v = c2call.Language)
    ∧ containsStr (query c2call) (queryEscape "place_id" ++ "=" ++ queryEscape c2call.Language) :=
  ⟨by decide, placeId_branch_serializes_language c2call (by decide)⟩

/-- C3: validate succeeds exactly when a coordinate is non-zero or the
place identifier is non-empty, and fails with the missing-locator error
exactly when both coordinates are zero and the place identifier is
empty. -/
theorem validate_iff_locator (n : ReverseGeocodeCall) :
    (validate n = none ↔ ((n.lat ≠ 0 ∨ n.lng ≠ 0) ∨ n.PlaceId ≠ ""))
    ∧ (validate n = some GeoError.errLatLngOrPlaceIdRequire
        ↔ (n.lat = 0 ∧ n.lng = 0 ∧ n.PlaceId = "")) := by
  unfold validate
  constructor <;> split_ifs <;> simp_all
  tauto

/-- C4: for a 200 response whose body decodes, Do returns the decoded
response exactly when its status field is the literal OK, and otherwise
returns the apiError carrying the decoded status and message. -/
theorem do_ok_iff_status_ok (n : ReverseGeocodeCall)
    (get : String → Except String HttpResponse)
    (unm : String → Except String GeocodeResponse)
    (resp : HttpResponse) (data : GeocodeResponse)
    (hv : validate n = none)
    (hg : get (baseURL ++ "/json?" ++ query n) = Except.ok resp)
    (hs : resp.StatusCode = 200)
    (hu : unm resp.Body = Except.ok data) :
    ((Do n get unm).1 = Except.ok data ↔ data.Status = "OK")
    ∧ (data.Status ≠ "OK" →
        (Do n get unm).1
          = Except.error (GeoError.api { Status := data.Status, Message := data.ErrorMessage })) := by
  have hDo : (Do n get unm).1
      = if data.Status ≠ "OK" then
          Except.error (GeoError.api { Status := data.Status, Message := data.ErrorMessage })
        else Except.ok data := by
    simp [Do, hv, hg, hs, hu]
    split <;> rfl
  by_cases h : data.Status = "OK"
  · rw [hDo]
    simp [h]
  · rw [hDo]
    simp [h]

theorem do_ok_iff_status_ok_witness :
    ((Do c4call c4get c4unm).1 = Except.ok c4data ↔ c4data.Status = "OK")
    ∧ (c4data.Status ≠ "OK" →
        (Do c4call c4get c4unm).1
          = Except.error (GeoError.api { Status := c4data.Status, Message := c4data.ErrorMessage })) :=
  do_ok_iff_status_ok c4call c4get c4unm c4resp c4data (by decide) rfl rfl rfl

/-- C5: for a non-200 response, Do fails with the bad-response error
carrying the status code and the raw body, the formatted message of that
error contains the code and the body, and the JSON decoder is never
consulted: the result is the same for every decoder. -/
theorem do_non200_http_error (n : ReverseGeocodeCall)
    (get : String → Except String HttpResponse)
    (unm : String → Except String GeocodeResponse)
    (resp : HttpResponse)
    (hv : validate n = none)
    (hg : get (baseURL ++ "/json?" ++ query n) = Except.ok resp)
    (hs : resp.StatusCode ≠ 200) :
    (Do n get unm).1 = Except.error (GeoError.badResp resp.StatusCode resp.Body)
    ∧ (∀ unm2 : String → Except String GeocodeResponse, Do n get unm2 = Do n get unm)
    ∧ containsStr (badRespMsg resp.StatusCode resp.Body) (toString resp.StatusCode)
    ∧ containsStr (badRespMsg resp.StatusCode resp.Body) resp.Body := by
  have hDo : ∀ unm2 : String → Except String GeocodeResponse,
      Do n get unm2
        = (Except.error (GeoError.badResp resp.StatusCode resp.Body),
           [baseURL ++ "/json?" ++ query n]) := by
    intro unm2
    simp [Do, hv, hg, hs]
  refine ⟨by rw [hDo unm], fun unm2 => by rw [hDo unm2, hDo unm], ?_, ?_⟩
  · refine ⟨"bad resp ", ": " ++ resp.Body, ?_⟩
    unfold badRespMsg
    simp [String.append_assoc]
  · refine ⟨"bad resp " ++ toString resp.StatusCode ++ ": ", "", ?_⟩
    unfold badRespMsg
    simp [String.append_empty, String.append_assoc]

theorem do_non200_http_error_witness :
    c5resp.StatusCode = 500
    ∧ (Do c5call c5get c5unm).1 = Except.error (GeoError.badResp c5resp.StatusCode c5resp.Body)
    ∧ (∀ unm2 : String → Except String GeocodeResponse, Do c5call c5get unm2 = Do c5call c5get c5unm)
    ∧ containsStr (badRespMsg c5resp.StatusCode c5resp.Body) (toString c5resp.StatusCode)
    ∧ containsStr (badRespMsg c5resp.StatusCode c5resp.Body) c5resp.Body :=
  ⟨rfl, do_non200_http_error c5call c5get c5unm c5resp (by decide) rfl (by decide)⟩

/-- C6: the query contains a latlng parameter exactly when one of the
coordinates is non-zero, and its value is then the two coordinates in
the six-decimal fixed-point format of the fmt verb f, comma separated;
when both coordinates are zero no latlng parameter exists. -/
theorem latlng_param_iff_nonzero (r : ReverseGeocodeCall) (v : String) :
    ("latlng", v) ∈ queryPairs r
      ↔ ((r.lat ≠ 0 ∨ r.lng ≠ 0) ∧ v = goFmtF r.lat ++ "," ++ goFmtF r.lng) := by
  simp [queryPairs, mem_ite_nil]

/-- C7: the query contains a result type parameter exactly when the
result-type filter list is non-empty, with the elements joined by a pipe
character, and likewise for the location type parameter; in the encoded
query string the escaped pair appears, the pipe being percent-encoded,
as the concrete conjunct about c7call shows. -/
theorem filter_type_params (r : ReverseGeocodeCall) (v : String) :
    (("result_type", v) ∈ queryPairs r
      ↔ (r.ResultType ≠ [] ∧ v = String.intercalate "|" r.ResultType))
    ∧ (("location_type", v) ∈ queryPairs r
      ↔ (r.LocationType ≠ [] ∧ v = String.intercalate "|" r.LocationType))
    ∧ (r.ResultType ≠ [] →
        containsStr (query r) (queryEscape "result_type" ++ "=" ++ queryEscape (String.intercalate "|" r.ResultType)))
    ∧ (r.LocationType ≠ [] →
        containsStr (query r) (queryEscape "location_type" ++ "=" ++ queryEscape (String.intercalate "|" r.LocationType)))
    ∧ containsStr (query c7call) "result_type=country%7Cpostal_code" := by
  refine ⟨?_, ?_, ?_, ?_, ?_⟩
  · simp [queryPairs, mem_ite_nil]
  · simp [queryPairs, mem_ite_nil]
  · intro h
    have hm : ("result_type", String.intercalate "|" r.ResultType) ∈ queryPairs r := by
      simp [queryPairs, mem_ite_nil, h]
    simpa [query] using encode_pair_infix hm
  · intro h
    have hm : ("location_type", String.intercalate "|" r.LocationType) ∈ queryPairs r := by
      simp [queryPairs, mem_ite_nil, h]
    simpa [query] using encode_pair_infix hm
  · exact ⟨"key=k&language=th&place_id=th&", "", by decide⟩

/-- C8: the query always contains the key parameter with the configured
API key of the owning service, whatever the optional fields are. -/
theorem key_always_included (r : ReverseGeocodeCall) :
    ("key", r.service.key) ∈ queryPairs r
    ∧ containsStr (query r) (queryEscape "key" ++ "=" ++ queryEscape r.service.key) := by
  have h1 : ("key", r.service.key) ∈ queryPairs r := by
    simp [queryPairs]
  exact ⟨h1, encode_pair_infix h1⟩

/-- C9: when both coordinates are zero and the place identifier is
empty, Do returns the missing-locator error and the list of fetched
URLs is empty, for every transport and decoder: no network call is
made. -/
theorem do_invalid_no_network (n : ReverseGeocodeCall)
    (get : String → Except String HttpResponse)
    (unm : String → Except String GeocodeResponse)
    (h1 : n.lat = 0) (h2 : n.lng = 0) (h3 : n.PlaceId = "") :
    Do n get unm = (Except.error GeoError.errLatLngOrPlaceIdRequire, []) := by
  simp [Do, validate, h1, h2, h3]

theorem do_invalid_no_network_witness :
    c9call.lat = 0 ∧ c9call.lng = 0 ∧ c9call.PlaceId = ""
    ∧ Do c9call c9get c9unm = (Except.error GeoError.errLatLngOrPlaceIdRequire, []) :=
  ⟨rfl, rfl, rfl, do_invalid_no_network c9call c9get c9unm rfl rfl rfl⟩

/-- C10: two builders that agree on the coordinates, the place
identifier, the language, both filter lists and the API key of their
services produce the same query string; the encoded entries stand in
sorted key order and each entry is the escaped key, an equals sign and
the escaped value. -/
theorem query_deterministic_sorted (r1 r2 : ReverseGeocodeCall)
    (hk : r1.service.key = r2.service.key)
    (hlat : r1.lat = r2.lat) (hlng : r1.lng = r2.lng)
    (hp : r1.PlaceId = r2.PlaceId) (hl : r1.Language = r2.Language)
    (hrt : r1.ResultType = r2.ResultType) (hlt : r1.LocationType = r2.LocationType) :
    query r1 = query r2
    ∧ List.Sorted keyLe (List.insertionSort keyLe (queryPairs r1))
    ∧ query r1
        = joinAmp ((List.insertionSort keyLe (queryPairs r1)).map
            fun p => queryEscape p.1 ++ "=" ++ queryEscape p.2) := by
  have hqp : queryPairs r1 = queryPairs r2 := by
    unfold queryPairs
    rw [hk, hlat, hlng, hp, hl, hrt, hlt]
  exact ⟨by unfold query; rw [hqp], List.sorted_insertionSort keyLe _, rfl⟩

theorem query_deterministic_sorted_witness :
    query c10a = query c10b
    ∧ List.Sorted keyLe (List.insertionSort keyLe (queryPairs c10a))
    ∧ query c10a
        = joinAmp ((List.insertionSort keyLe (queryPairs c10a)).map
            fun p => queryEscape p.1 ++ "=" ++ queryEscape p.2) :=
  query_deterministic_sorted c10a c10b rfl rfl rfl rfl rfl rfl rfl

end Geocode
